import Mathlib

/-!
Verification of the paginated-extraction orchestrator in `crawl.py`
(NaverShoppingReviewCrawler).  The Python source is shallowly embedded:
pure computations (the pagination plan, the page-count formula) become Lean
functions; the stateful per-attempt session code becomes a function of an
explicit attempt environment describing what the remote site returned; the
unbounded retry loop becomes a recursion over the list of attempt outcomes.
Machine integers are modelled as `Int`/`Nat`; Python `//` and `%` (floor
division) are `Int.fdiv`/`Int.fmod`; Python exceptions become an explicit
error type threaded through `Except`.
-/

namespace Crawl

/-- The two site variants distinguished by `args.subdomain` (crawl.py:23-26). -/
inductive Subdomain where
  | shopping
  | brand
deriving DecidableEq

/-- Sort modes accepted by the `--sort-with` CLI option (crawl.py:227-228). -/
inductive SortMode where
  | ranking
  | recent
deriving DecidableEq

/-- Python exception classes relevant to the control flow of `run`/`_run`
(crawl.py:89-118): `blockedExc` is `BlockedException` (an `Exception`
subclass, crawl.py:89-90), `keyboardInterrupt` is `KeyboardInterrupt`
(a `BaseException` that is *not* an `Exception`), and `exc msg` stands for
any other `Exception` (TimeoutException, AssertionError, ...). -/
inductive PyError where
  | blockedExc
  | keyboardInterrupt
  | exc (msg : String)
deriving DecidableEq

/-- Whether a Python `except Exception` clause catches this error.
`KeyboardInterrupt` derives from `BaseException` but not `Exception`. -/
def PyError.isException : PyError → Bool
  | PyError.blockedExc => true
  | PyError.keyboardInterrupt => false
  | PyError.exc _ => true

/-- One scraped review dict `{'star': ..., 'date': ..., 'text': ...}`
(crawl.py:156). -/
structure Record where
  star : Int
  date : String
  text : String
deriving DecidableEq

/-- One located review item element, already carrying the values its three
sub-elements yield (the site-specific selector/parsing rules of
crawl.py:152-155 are out of scope per the spec, §1/§6). -/
structure ReviewItem where
  star : Int
  date : String
  text : String
deriving DecidableEq

/-- The relevant fields of the argparse `Namespace` built by `parse_args`
(crawl.py:223-235) plus the per-task `page_number` set in `run_all`
(crawl.py:163-164). -/
structure Args where
  url : String
  subdomain : Subdomain
  sort_with : SortMode
  page_number : Int
  debug : Bool
  cpu_count : Nat
  max_page : Option Int
deriving DecidableEq

/-- Constant `NUM_ITEMS_PER_PAGE` (crawl.py:17). -/
def NUM_ITEMS_PER_PAGE : Nat := 20

/-- Constant `MAX_NUM_PAGE` (crawl.py:19). -/
def MAX_NUM_PAGE : Nat := 100

/-- Constant dict `BLOCKED_URL` (crawl.py:83-86): the blocked-page sentinel
is a URL string for `shopping` and `None` for `brand`. -/
def BLOCKED_URL : Subdomain → Option String
  | Subdomain.shopping => some "https://search.shopping.naver.com/blocked.html"
  | Subdomain.brand => none

/-- Constant dict `TEXT_REVIEW_TAB_DICT` (crawl.py:38-41). -/
def TEXT_REVIEW_TAB_DICT : Subdomain → String
  | Subdomain.shopping => "쇼핑몰리뷰"
  | Subdomain.brand => "리뷰"

/-- The literal timeout `10` passed as second argument to every
`WebDriverWait` the crawler creates (crawl.py:140 and crawl.py:146). -/
def WEB_DRIVER_WAIT_TIMEOUT : Nat := 10

/-- The sequence of pagination-button slot indices clicked by `goto_page`
(crawl.py:121-131).  Each element is the `index` passed to
`click_pagination_button`.  Python `//` and `%` are floor division, hence
`Int.fdiv`/`Int.fmod`; `range` of a non-positive int is empty, hence
`Int.toNat`. -/
def goto_page (page_number : Int) : List Int :=
  if page_number < 11 then
    [page_number]
  else
    ((List.range ((page_number - 1).fdiv 10).toNat).map fun i =>
        if i = 0 then (11 : Int) else 12)
      ++ (if (page_number - 1).fmod 10 > 1 then [page_number.fmod 10 + 1] else [])

/-- A navigation action of the spec's `NavigationPlan` (spec §3, §4.1):
either an advance-window click or a direct page-link click, at some slot. -/
inductive NavAction where
  | advance (slot : Int)
  | direct (slot : Int)
deriving DecidableEq

/-- The slot a navigation action clicks. -/
def NavAction.slot : NavAction → Int
  | NavAction.advance s => s
  | NavAction.direct s => s

/-- Reference algorithm written from the spec's words (§4.1, steps 1-3):
`advances = floor((pageIndex-1)/groupSize)` advance clicks (first at slot
11, the rest at slot 12) followed by a direct click at slot `pageIndex`
when `advances = 0`, a trailing direct click at slot `pageIndex mod 10 + 1`
when `advances > 0` and `remainder > 1`, and nothing otherwise.  Declared
only to be compared with `goto_page`, which is translated from the code. -/
def spec_plan (pageIndex : Int) : List NavAction :=
  let advances := (pageIndex - 1).fdiv 10
  let remainder := (pageIndex - 1).fmod 10
  ((List.range advances.toNat).map fun i =>
      NavAction.advance (if i = 0 then (11 : Int) else 12))
    ++ (if advances = 0 then [NavAction.direct pageIndex]
        else if remainder > 1 then [NavAction.direct (pageIndex.fmod 10 + 1)]
        else [])

/-- A slot the paginator actually exposes: the spec's window geometry is
`slotCount = groupSize + 2 = 12` slots, indexed 1..12 (spec §4.1). -/
def validSlot (s : Int) : Prop := 1 ≤ s ∧ s ≤ 12

instance (s : Int) : Decidable (validSlot s) :=
  inferInstanceAs (Decidable (1 ≤ s ∧ s ≤ 12))

/-- `load_webpage` (crawl.py:190-193): after loading, raise
`BlockedException` iff `chromedriver.current_url == BLOCKED_URL[subdomain]`.
A Python `str` never equals `None` and equals another `str` by value, so the
test holds iff the sentinel is `some current_url`. -/
def load_webpage (sub : Subdomain) (current_url : String) : Except PyError Unit :=
  if BLOCKED_URL sub = some current_url then Except.error PyError.blockedExc
  else Except.ok ()

/-- `crawl_review_items` (crawl.py:145-157).  `waitResult` is the outcome of
the `WebDriverWait ... visibility_of_all_elements_located` call (a timeout
or interrupt there surfaces as its error).  The statement
`assert len(review_items) == 20` (crawl.py:149, with the literal `20`)
raises `AssertionError` — an ordinary `Exception` — whenever the located
item count differs from 20; otherwise one record per item is returned in
encounter order. -/
def crawl_review_items (waitResult : Except PyError (List ReviewItem)) :
    Except PyError (List Record) :=
  match waitResult with
  | Except.error e => Except.error e
  | Except.ok review_items =>
    if review_items.length = 20 then
      Except.ok (review_items.map fun item =>
        { star := item.star, date := item.date, text := item.text })
    else Except.error (PyError.exc "AssertionError")

deriving instance DecidableEq for Except

/-- What the remote site / the user does during one attempt of `_run`:
the URL the browser lands on, and the outcomes of the sort click, of the
pagination clicks of `goto_page`, and of the wait for the review items.
Any field may be a `keyboardInterrupt` (the user pressing Ctrl-C during
that step) or any other error the corresponding selenium call raises. -/
structure AttemptEnv where
  currentUrl : String
  sortClickResult : Except PyError Unit
  gotoResult : Except PyError Unit
  itemsResult : Except PyError (List ReviewItem)
deriving DecidableEq

/-- The `try` body of `_run` (crawl.py:107-114): load the page (blocked
check), click the recent-sort button only when `sort_with == 'recent'`
(crawl.py:109-110), execute the pagination clicks, then scrape the items.
The first error aborts the chain, as a raised exception does. -/
def _runBody (args : Args) (env : AttemptEnv) : Except PyError (List Record) :=
  match load_webpage args.subdomain env.currentUrl with
  | Except.error e => Except.error e
  | Except.ok _ =>
    match (if args.sort_with = SortMode.recent then env.sortClickResult
           else Except.ok ()) with
    | Except.error e => Except.error e
    | Except.ok _ =>
      match env.gotoResult with
      | Except.error e => Except.error e
      | Except.ok _ => crawl_review_items env.itemsResult

/-- `_run` (crawl.py:105-118).  The second component records whether
`chromedriver.quit()` ran during the attempt: on success the quit at
crawl.py:113 runs; on a failure caught by `except Exception` (crawl.py:115)
the quit at crawl.py:117 runs iff `not args.debug`, and the error is
re-raised; a `BaseException` that is not an `Exception` (`KeyboardInterrupt`)
skips that handler entirely, so no quit runs on that path. -/
def _run (args : Args) (env : AttemptEnv) : Except PyError (List Record) × Bool :=
  match _runBody args env with
  | Except.ok items => (Except.ok items, true)
  | Except.error e => (Except.error e, e.isException && !args.debug)

/-- The message printed by the catch-all retry branch of `run`
(crawl.py:102), an f-string over the page index only. -/
def pageLogMessage (page_number : Int) : String :=
  "Exception from page index " ++ toString page_number ++ "."

/-- Observable facts about one attempt of the retry loop: the timeout every
`WebDriverWait` of the attempt was created with, whether the attempt
released its chromedriver handle, and the message printed by the catch-all
branch (`none` when that branch did not run). -/
structure AttemptTrace where
  timeout : Nat
  released : Bool
  logged : Option String
deriving DecidableEq

/-- The retry loop `run` (crawl.py:93-103) over the list of environments of
the successive attempts, together with one `AttemptTrace` per executed
attempt.  `return _run(args)` ends the loop with the page records; catching
`(KeyboardInterrupt, BlockedException)` ends it with `[]`; any other
`BaseException` prints the page-index message and loops.  The first
component is `none` when every provided attempt failed retryably — the loop
is still running (it has no retry ceiling). -/
def runTrace (args : Args) : List AttemptEnv → Option (List Record) × List AttemptTrace
  | [] => (none, [])
  | env :: rest =>
    match (_run args env).1 with
    | Except.ok items =>
      (some items, [⟨WEB_DRIVER_WAIT_TIMEOUT, (_run args env).2, none⟩])
    | Except.error PyError.blockedExc =>
      (some [], [⟨WEB_DRIVER_WAIT_TIMEOUT, (_run args env).2, none⟩])
    | Except.error PyError.keyboardInterrupt =>
      (some [], [⟨WEB_DRIVER_WAIT_TIMEOUT, (_run args env).2, none⟩])
    | Except.error (PyError.exc _) =>
      ((runTrace args rest).1,
        ⟨WEB_DRIVER_WAIT_TIMEOUT, (_run args env).2,
          some (pageLogMessage args.page_number)⟩ :: (runTrace args rest).2)

/-- The value `run` returns (crawl.py:93-103): the first component of the
traced loop. -/
def run (args : Args) (envs : List AttemptEnv) : Option (List Record) :=
  (runTrace args envs).1

/-- A concrete job: shopping subdomain, ranking sort, page 5, no debug. -/
def args0 : Args :=
  ⟨"u", Subdomain.shopping, SortMode.ranking, 5, false, 1, none⟩

/-- Twenty located review items. -/
def items20 : List ReviewItem := List.replicate 20 ⟨5, "2021.01.01", "good"⟩

/-- The records scraped from `items20`. -/
def records20 : List Record := List.replicate 20 ⟨5, "2021.01.01", "good"⟩

/-- An attempt in which every step succeeds and 20 items are found. -/
def envOk : AttemptEnv := ⟨"u", Except.ok (), Except.ok (), Except.ok items20⟩

/-- An attempt in which a pagination click times out (a retryable failure). -/
def envFail : AttemptEnv :=
  ⟨"u", Except.ok (), Except.error (PyError.exc "TimeoutException"), Except.ok items20⟩

/-- An attempt interrupted by Ctrl-C during the pagination clicks. -/
def envInterrupt : AttemptEnv :=
  ⟨"u", Except.ok (), Except.error PyError.keyboardInterrupt, Except.ok items20⟩

/-- An attempt that lands on the shopping blocked page. -/
def envBlocked : AttemptEnv :=
  ⟨"https://search.shopping.naver.com/blocked.html",
    Except.ok (), Except.ok (), Except.ok items20⟩

/-- The trace of the failing attempt of `[envFail, envOk]` under `args0`. -/
def traceW : AttemptTrace := ⟨10, true, some (pageLogMessage 5)⟩

/-- The page-count computation at crawl.py:242:
`min((num_review // NUM_ITEMS_PER_PAGE) + 1, MAX_NUM_PAGE)` — Python `//`
on non-negative ints is `Nat` division. -/
def compute_max_page (num_review : Nat) : Nat :=
  min (num_review / NUM_ITEMS_PER_PAGE + 1) MAX_NUM_PAGE

/-- The guard `if not args.max_page:` (crawl.py:241-242): argparse leaves
`max_page` as `None` when `--max-page` is absent, and Python treats both
`None` and `0` as falsy, so in those cases the computed count is used; any
other explicit value is kept unchanged. -/
def resolve_max_page (max_page : Option Int) (num_review : Nat) : Int :=
  match max_page with
  | none => (compute_max_page num_review : Int)
  | some m => if m = 0 then (compute_max_page num_review : Int) else m

/-- The spec's page-count formula (§4.6):
`min(ceil(totalItems / pageSize), pageCap)` with pageSize 20 and pageCap
100, the ceiling written as `(n + 19) / 20` on `Nat`.  Declared only to be
compared with the code's formula. -/
def spec_page_count (totalItems : Nat) : Nat :=
  min ((totalItems + NUM_ITEMS_PER_PAGE - 1) / NUM_ITEMS_PER_PAGE) MAX_NUM_PAGE

/-- The per-page argument copies built by `run_all` (crawl.py:161-165): one
copy of `args` per page number, with `page_number` set to that page. -/
def mkArgsList (args : Args) (page_numbers : List Int) : List Args :=
  page_numbers.map fun p => { args with page_number := p }

/-- The pool's completion log: the workers finish the tasks in the
arbitrary order `order` (a list of task indices), and each completion
stores the task's index together with its result. -/
def poolCollect {β : Type} (f : Args → β) (tasks : List Args) (order : List Nat) :
    List (Nat × β) :=
  order.filterMap fun i => (tasks[i]?).map fun t => (i, f t)

/-- `Pool.imap` semantics (crawl.py:167): results are yielded in task
submission order regardless of completion order, each task's result looked
up in the completion log (`none` stands for waiting forever on a task that
never completes; it cannot occur when `order` covers every index). -/
def imap {β : Type} (f : Args → β) (tasks : List Args) (order : List Nat) :
    List (Option β) :=
  (List.range tasks.length).map fun i => (poolCollect f tasks order).lookup i

/-- `run_all` (crawl.py:160-169): build the per-page args list, map the
worker function over it through the pool, and flatten the per-page result
lists into one list (the comprehension at crawl.py:168, which feeds the
`DataFrame` row list).  `f` is the function handed to `pool.imap` — the
retry wrapper `run` in `__main__`. -/
def run_all (f : Args → List Record) (args : Args) (page_numbers : List Int)
    (order : List Nat) : List Record :=
  ((imap f (mkArgsList args page_numbers) order).filterMap id).join

/-- A worker function recording which page it was called for. -/
def fW : Args → List Record := fun a => [⟨a.page_number, "d", "t"⟩]

/-- Python `needle in haystack` on strings: substring containment. -/
def py_contains (haystack needle : String) : Bool :=
  decide (needle.toList <:+: haystack.toList)

/-- One tab element of the product page (crawl.py:176-180): its text and
the review count its count sub-element carries (the site-specific
sub-locator and the `int(text.replace(',', ''))` parsing rule are out of
scope per the spec, §1/§6). -/
structure Tab where
  text : String
  num_review : Int
deriving DecidableEq

/-- `get_info` (crawl.py:172-187), the discovery probe.  The `for` loop
takes the first tab whose text contains `TEXT_REVIEW_TAB_DICT[subdomain]`,
quits the driver (crawl.py:181) and breaks; the loop's `else` raises
`Exception('Cannot find 쇼핑몰리뷰 tab.')` (crawl.py:184), and the
`if not args.debug: chromedriver.quit()` after the raise (crawl.py:185-186)
is unreachable.  The second component records whether the probe's handle
was released: `true` on the found path, `false` on the failure path,
independently of `debug`. -/
def get_info (sub : Subdomain) (debug : Bool) (product_name : String)
    (tabs : List Tab) : Except String (String × Int) × Bool :=
  match tabs.find? (fun tab => py_contains tab.text (TEXT_REVIEW_TAB_DICT sub)) with
  | some tab => (Except.ok (product_name, tab.num_review), true)
  | none => (Except.error "Cannot find 쇼핑몰리뷰 tab.", false)

/-- Tabs of a product page that has no review tab. -/
def tabsNoReview : List Tab := [⟨"상세정보", 0⟩]

end Crawl

namespace Crawl

/-- Claim C1: for every pageIndex ≥ 1 the click sequence of `goto_page`
equals the slot sequence of the spec's reference algorithm, and in
particular the plan for page 25 is [advance 11, advance 12, direct 6]. -/
theorem goto_page_matches_spec_plan :
    (∀ p : Int, 1 ≤ p → goto_page p = (spec_plan p).map NavAction.slot) ∧
    spec_plan 25 = [NavAction.advance 11, NavAction.advance 12, NavAction.direct 6] ∧
    goto_page 25 = [11, 12, 6] := by
  refine ⟨?_, by decide, by decide⟩
  intro p hp
  by_cases hlt : p < 11
  · have h1 : (p - 1).fdiv 10 = 0 := by
      rw [Int.fdiv_eq_ediv _ (by omega)]
      omega
    simp [goto_page, spec_plan, hlt, h1, NavAction.slot]
  · have h2 : ¬ (p - 1).fdiv 10 = 0 := by
      rw [Int.fdiv_eq_ediv _ (by omega)]
      omega
    simp only [goto_page, spec_plan, if_neg hlt, if_neg h2, List.map_append,
      List.map_map]
    congr 1
    by_cases hr : (p - 1).fmod 10 > 1 <;> simp [hr, NavAction.slot]

/-- Witness for C1 at the concrete page index 7. -/
theorem goto_page_matches_spec_plan_witness :
    goto_page 7 = (spec_plan 7).map NavAction.slot :=
  goto_page_matches_spec_plan.1 7 (by decide)

/-- Counterexample for claim C8: at pageIndex 0 (< 1) the plan computation
does not fail with an invalid-input error — `goto_page` is a total function
and returns a one-click plan at the out-of-range slot 0. -/
theorem plan_invalid_input_cex : goto_page 0 = [0] ∧ ¬ validSlot 0 := by
  decide

/-- Claim C8 (amended): the plan computation never fails; for every
pageIndex ≥ 1 every click of the plan targets a valid slot (1..12), while
for pageIndex < 1 it silently produces a single direct click at the invalid
slot pageIndex instead of raising an invalid-input error. -/
theorem goto_page_total_slots :
    (∀ p : Int, 1 ≤ p → ∀ s ∈ goto_page p, validSlot s) ∧
    (∀ p : Int, p < 1 → goto_page p = [p]) := by
  constructor
  · intro p hp s hs
    by_cases hlt : p < 11
    · simp [goto_page, hlt] at hs
      subst hs
      exact ⟨hp, by omega⟩
    · have hmod : 0 ≤ p.fmod 10 ∧ p.fmod 10 < 10 := by
        rw [Int.fmod_eq_emod _ (by omega)]
        omega
      simp [goto_page, hlt] at hs
      rcases hs with ⟨i, _, hi⟩ | ⟨_, hs⟩
      · by_cases h0 : i = 0 <;> simp [h0] at hi <;> subst hi <;> exact ⟨by omega, by omega⟩
      · subst hs
        exact ⟨by omega, by omega⟩
  · intro p hp
    simp [goto_page, show p < 11 by omega]

/-- Witness for the amended C8: slot 11 of the plan for page 25 is valid. -/
theorem goto_page_total_slots_witness : validSlot 11 :=
  goto_page_total_slots.1 25 (by decide) 11 (by decide)

/-- Helper: a successful `crawl_review_items` returns exactly 20 records. -/
theorem crawl_ok_length (w : Except PyError (List ReviewItem)) (items : List Record)
    (h : crawl_review_items w = Except.ok items) : items.length = 20 := by
  cases w with
  | error e => exact Except.noConfusion h
  | ok l =>
    simp only [crawl_review_items] at h
    split at h
    · next hl =>
        injection h with h2
        rw [← h2, List.length_map]
        exact hl
    · exact Except.noConfusion h

/-- Helper: a successful `_runBody` got its records from `crawl_review_items`. -/
theorem _runBody_ok (args : Args) (env : AttemptEnv) (items : List Record)
    (h : _runBody args env = Except.ok items) :
    crawl_review_items env.itemsResult = Except.ok items := by
  unfold _runBody at h
  split at h
  · exact Except.noConfusion h
  · split at h
    · exact Except.noConfusion h
    · split at h
      · exact Except.noConfusion h
      · exact h

/-- Helper: a successful attempt returns exactly 20 records. -/
theorem _run_ok_length (args : Args) (env : AttemptEnv) (items : List Record)
    (h : (_run args env).1 = Except.ok items) : items.length = 20 := by
  cases hb : _runBody args env with
  | ok items2 =>
    simp [_run, hb] at h
    subst h
    exact crawl_ok_length env.itemsResult items2 (_runBody_ok args env items2 hb)
  | error e => simp [_run, hb] at h

/-- Counterexample for claim C3: in a run whose first attempt fails
retryably and whose second succeeds, both attempts create their
`WebDriverWait`s with the same timeout 10 — whereas a counter read at
session creation and incremented on the failure would force the second
timeout to exceed the first by one — and the failure log is the fixed
page-index message with no backoff value in it. -/
theorem backoff_counter_cex :
    ((runTrace args0 [envFail, envOk]).2.map AttemptTrace.timeout = [10, 10]) ∧
    (¬ ∃ v : Nat,
        (runTrace args0 [envFail, envOk]).2.map AttemptTrace.timeout = [v, v + 1]) ∧
    ((runTrace args0 [envFail, envOk]).2.map AttemptTrace.logged =
      [some "Exception from page index 5.", none]) := by
  have hcomp : (runTrace args0 [envFail, envOk]).2.map AttemptTrace.timeout
      = [10, 10] := by decide
  refine ⟨hcomp, ?_, by decide⟩
  rintro ⟨v, hv⟩
  rw [hcomp] at hv
  simp at hv
  omega

/-- Claim C3 (amended): there is no shared backoff counter — every
`WebDriverWait` of every attempt is created with the constant timeout 10
regardless of prior failures (hence timeouts are trivially non-decreasing),
and the retry loop logs only the page index on a transient failure. -/
theorem wait_timeout_constant (args : Args) (envs : List AttemptEnv) :
    ∀ t ∈ (runTrace args envs).2,
      t.timeout = 10 ∧
      (t.logged = none ∨ t.logged = some (pageLogMessage args.page_number)) := by
  induction envs with
  | nil => intro t ht; simp [runTrace] at ht
  | cons env rest ih =>
    intro t ht
    cases hres : (_run args env).1 with
    | ok items =>
      simp [runTrace, hres] at ht
      subst ht
      exact ⟨rfl, Or.inl rfl⟩
    | error e =>
      cases e with
      | blockedExc =>
        simp [runTrace, hres] at ht
        subst ht
        exact ⟨rfl, Or.inl rfl⟩
      | keyboardInterrupt =>
        simp [runTrace, hres] at ht
        subst ht
        exact ⟨rfl, Or.inl rfl⟩
      | exc m =>
        simp [runTrace, hres] at ht
        rcases ht with ht | ht
        · subst ht
          exact ⟨rfl, Or.inr rfl⟩
        · exact ih t ht

/-- Witness for the amended C3 at a concrete run. -/
theorem wait_timeout_constant_witness :
    traceW.timeout = 10 ∧
    (traceW.logged = none ∨ traceW.logged = some (pageLogMessage args0.page_number)) :=
  wait_timeout_constant args0 [envFail, envOk] traceW (by decide)

/-- Claim C4: the retry wrapper `run` never lets an exception escape; it
keeps retrying through any prefix of retryable (non-Blocked, non-interrupt)
failures, returns `[]` as soon as an attempt ends in `BlockedException` or
`KeyboardInterrupt` (abandoning just this task), returns the page's records
exactly on the first successful attempt, and yields no result at all while
every attempt so far failed retryably (there is no retry ceiling). -/
theorem run_absorbs_failures (args : Args) (envs : List AttemptEnv) :
    ((∀ env ∈ envs, ∃ m, (_run args env).1 = Except.error (PyError.exc m)) →
        run args envs = none) ∧
    (∀ r, run args envs = some r →
      ∃ pre env post, envs = pre ++ env :: post ∧
        (∀ e ∈ pre, ∃ m, (_run args e).1 = Except.error (PyError.exc m)) ∧
        ((((_run args env).1 = Except.error PyError.blockedExc ∨
            (_run args env).1 = Except.error PyError.keyboardInterrupt) ∧ r = []) ∨
          (_run args env).1 = Except.ok r)) := by
  induction envs with
  | nil =>
    refine ⟨fun _ => rfl, fun r h => ?_⟩
    simp [run, runTrace] at h
  | cons env rest ih =>
    constructor
    · intro hall
      obtain ⟨m, hm⟩ := hall env (List.mem_cons_self env rest)
      have hstep : run args (env :: rest) = run args rest := by
        simp [run, runTrace, hm]
      rw [hstep]
      exact ih.1 fun e he => hall e (List.mem_cons_of_mem env he)
    · intro r h
      cases hres : (_run args env).1 with
      | ok items =>
        simp [run, runTrace, hres] at h
        subst h
        exact ⟨[], env, rest, rfl, by simp, Or.inr hres⟩
      | error e =>
        cases e with
        | blockedExc =>
          simp [run, runTrace, hres] at h
          exact ⟨[], env, rest, rfl, by simp, Or.inl ⟨Or.inl hres, h⟩⟩
        | keyboardInterrupt =>
          simp [run, runTrace, hres] at h
          exact ⟨[], env, rest, rfl, by simp, Or.inl ⟨Or.inr hres, h⟩⟩
        | exc m =>
          have h2 : run args rest = some r := by
            simpa [run, runTrace, hres] using h
          obtain ⟨pre, env2, post, hsplit, hpre, hlast⟩ := ih.2 r h2
          refine ⟨env :: pre, env2, post, by rw [hsplit, List.cons_append], ?_, hlast⟩
          intro e he
          rcases List.mem_cons.mp he with he1 | he2
          · exact ⟨m, he1 ▸ hres⟩
          · exact hpre e he2

/-- Witness for C4: a run given only a retryable failure has not finished. -/
theorem run_absorbs_failures_witness : run args0 [envFail] = none :=
  (run_absorbs_failures args0 [envFail]).1 (by
    intro env he
    rw [List.mem_singleton] at he
    subst he
    exact ⟨"TimeoutException", rfl⟩)

/-- Claim C5: every result the retry wrapper returns has length 0 or 20,
and an attempt that observes an item count different from 20 fails with a
retryable `AssertionError` (an ordinary `Exception`) instead of returning a
partial list. -/
theorem page_result_length_invariant (args : Args) (envs : List AttemptEnv) :
    (∀ r, run args envs = some r → r.length = 0 ∨ r.length = 20) ∧
    (∀ items : List ReviewItem, items.length ≠ 20 →
        crawl_review_items (Except.ok items) = Except.error (PyError.exc "AssertionError") ∧
        (PyError.exc "AssertionError").isException = true) := by
  constructor
  · induction envs with
    | nil => intro r h; simp [run, runTrace] at h
    | cons env rest ih =>
      intro r h
      cases hres : (_run args env).1 with
      | ok items =>
        simp [run, runTrace, hres] at h
        subst h
        exact Or.inr (_run_ok_length args env items hres)
      | error e =>
        cases e with
        | blockedExc =>
          simp [run, runTrace, hres] at h
          exact Or.inl (by simp [h])
        | keyboardInterrupt =>
          simp [run, runTrace, hres] at h
          exact Or.inl (by simp [h])
        | exc m => exact ih r (by simpa [run, runTrace, hres] using h)
  · intro items hlen
    exact ⟨by simp [crawl_review_items, hlen], rfl⟩

/-- Witness for C5 at a concrete successful run. -/
theorem page_result_length_invariant_witness :
    records20.length = 0 ∨ records20.length = 20 :=
  (page_result_length_invariant args0 [envOk]).1 records20 (by decide)

/-- Counterexample for claim C6: with debug retention off, an attempt ended
by a user interrupt (`KeyboardInterrupt`) does not release its chromedriver
handle — `except Exception` (crawl.py:115) does not catch it. -/
theorem interrupt_leaks_handle_cex :
    args0.debug = false ∧
    (_run args0 envInterrupt).1 = Except.error PyError.keyboardInterrupt ∧
    (_run args0 envInterrupt).2 = false := ⟨rfl, by decide, by decide⟩

/-- Claim C6 (amended): the handle opened for an attempt is released on
success (even under debug), and on any `Exception`-class failure (Blocked
included) exactly when debug retention is not requested; on a user
interrupt — a `BaseException` outside the `except Exception` handler — it
is never released. -/
theorem handle_release_paths (args : Args) (env : AttemptEnv) :
    (∀ items, (_run args env).1 = Except.ok items → (_run args env).2 = true) ∧
    (∀ m, (_run args env).1 = Except.error (PyError.exc m) →
        (_run args env).2 = !args.debug) ∧
    ((_run args env).1 = Except.error PyError.blockedExc →
        (_run args env).2 = !args.debug) ∧
    ((_run args env).1 = Except.error PyError.keyboardInterrupt →
        (_run args env).2 = false) := by
  cases hb : _runBody args env with
  | ok items =>
    exact ⟨fun i h => by simp [_run, hb],
      fun m h => by simp [_run, hb] at h,
      fun h => by simp [_run, hb] at h,
      fun h => by simp [_run, hb] at h⟩
  | error e =>
    cases e with
    | blockedExc =>
      exact ⟨fun i h => by simp [_run, hb] at h,
        fun m h => by simp [_run, hb] at h,
        fun h => by simp [_run, hb, PyError.isException],
        fun h => by simp [_run, hb] at h⟩
    | keyboardInterrupt =>
      exact ⟨fun i h => by simp [_run, hb] at h,
        fun m h => by simp [_run, hb] at h,
        fun h => by simp [_run, hb] at h,
        fun h => by simp [_run, hb, PyError.isException]⟩
    | exc m0 =>
      exact ⟨fun i h => by simp [_run, hb] at h,
        fun m h => by simp [_run, hb, PyError.isException],
        fun h => by simp [_run, hb] at h,
        fun h => by simp [_run, hb] at h⟩

/-- Witness for the amended C6: the timed-out attempt under `args0`
releases its handle because debug retention is off. -/
theorem handle_release_paths_witness : (_run args0 envFail).2 = !args0.debug :=
  (handle_release_paths args0 envFail).2.1 "TimeoutException" (by decide)

/-- Counterexample for claim C2: at totalItems = 20 the code schedules
`min(20 // 20 + 1, 100) = 2` pages while the spec's formula
`min(ceil(20 / 20), 100)` gives 1. -/
theorem page_count_ceil_cex :
    resolve_max_page none 20 = 2 ∧ spec_page_count 20 = 1 ∧
    resolve_max_page none 20 ≠ (spec_page_count 20 : Int) := by decide

/-- Claim C2 (amended): with no override the page count is
`min(totalItems / 20 + 1, 100)` with floor division — the spec's ceiling
formula taken at `totalItems + 1` — and it coincides with the spec's
`min(ceil(totalItems / 20), 100)` whenever `totalItems` is not a multiple
of 20. -/
theorem page_count_floor_succ (n : Nat) :
    resolve_max_page none n = (spec_page_count (n + 1) : Int) ∧
    (n % NUM_ITEMS_PER_PAGE ≠ 0 →
        resolve_max_page none n = (spec_page_count n : Int)) := by
  refine ⟨?_, fun h => ?_⟩ <;>
    · simp only [resolve_max_page, compute_max_page, spec_page_count,
        NUM_ITEMS_PER_PAGE, MAX_NUM_PAGE] at *
      omega

/-- Witness for the amended C2 at 7 items (not a multiple of 20). -/
theorem page_count_floor_succ_witness :
    resolve_max_page none 7 = (spec_page_count 7 : Int) :=
  (page_count_floor_succ 7).2 (by decide)

/-- Helper: looking a completed task's index up in the completion log gives
that task's result, whatever position the completion took. -/
theorem lookup_poolCollect {β : Type} (f : Args → β) (tasks : List Args)
    (order : List Nat) (i : Nat) (hmem : i ∈ order) (hi : i < tasks.length) :
    (poolCollect f tasks order).lookup i = some (f tasks[i]) := by
  induction order with
  | nil => simp at hmem
  | cons j rest ih =>
    by_cases hj : j = i
    · subst hj
      simp only [poolCollect, List.filterMap_cons, List.getElem?_eq_getElem hi]
      simp [List.lookup]
    · have h2 : i ∈ rest := by
        rcases List.mem_cons.mp hmem with h1 | h1
        · exact absurd h1.symm hj
        · exact h1
      have ih2 := ih h2
      simp only [poolCollect, List.filterMap_cons]
      cases hg : tasks[j]? with
      | none => simpa [poolCollect] using ih2
      | some t =>
        have hbeq : (i == j) = false := by
          simp [Ne.symm hj]
        simpa [List.lookup, hbeq, poolCollect] using ih2

/-- Helper: when every task index completes exactly once, `imap` yields all
results in submission order. -/
theorem imap_perm {β : Type} (f : Args → β) (tasks : List Args) (order : List Nat)
    (h : order.Perm (List.range tasks.length)) :
    imap f tasks order = tasks.map fun t => some (f t) := by
  apply List.ext_getElem
  · simp [imap]
  · intro n h1 h2
    have hn : n < tasks.length := by simpa [imap] using h1
    have hmem : n ∈ order := h.mem_iff.mpr (List.mem_range.mpr hn)
    simp only [imap, List.getElem_map, List.getElem_range]
    exact lookup_poolCollect f tasks order n hmem hn

/-- Claim C7: whatever order the pool's workers complete in (any
permutation of the task indices), `run_all` returns the concatenation of
the per-page result lists in page-number submission order, each page's
list kept intact — so record order within a page is preserved. -/
theorem run_all_preserves_submission_order (f : Args → List Record) (args : Args)
    (page_numbers : List Int) (order : List Nat)
    (hperm : order.Perm (List.range page_numbers.length)) :
    run_all f args page_numbers order =
      (page_numbers.map fun p => f { args with page_number := p }).join := by
  have hlen : (mkArgsList args page_numbers).length = page_numbers.length := by
    simp [mkArgsList]
  rw [run_all, imap_perm f (mkArgsList args page_numbers) order (by rw [hlen]; exact hperm)]
  have hfm : ∀ (l : List Args),
      List.filterMap id (l.map fun t => some (f t)) = l.map f := by
    intro l
    induction l with
    | nil => rfl
    | cons a l2 ih => simp [List.filterMap_cons, ih]
  rw [hfm (mkArgsList args page_numbers)]
  simp only [mkArgsList, List.map_map]
  rfl

/-- Witness for C7: three pages completed in the order 2,0,1 still
aggregate in submission order 3,1,2. -/
theorem run_all_preserves_submission_order_witness :
    run_all fW args0 [3, 1, 2] [2, 0, 1] =
      (([3, 1, 2] : List Int).map fun p => fW { args0 with page_number := p }).join :=
  run_all_preserves_submission_order fW args0 [3, 1, 2] [2, 0, 1] (by decide)

/-- Claim C9: the brand blocked-page sentinel is `None`, which no current
URL string ever equals, so `load_webpage` can raise the terminal
`BlockedException` only for the shopping subdomain — where the sentinel URL
does trigger it. -/
theorem brand_never_blocked :
    (∀ url : String, load_webpage Subdomain.brand url = Except.ok ()) ∧
    (∀ sub url e, load_webpage sub url = Except.error e →
        sub = Subdomain.shopping ∧ e = PyError.blockedExc) ∧
    load_webpage Subdomain.shopping "https://search.shopping.naver.com/blocked.html" =
      Except.error PyError.blockedExc := by
  refine ⟨fun url => by simp [load_webpage, BLOCKED_URL], ?_, by decide⟩
  intro sub url e h
  cases sub with
  | shopping =>
    refine ⟨rfl, ?_⟩
    by_cases hu : BLOCKED_URL Subdomain.shopping = some url
    · rw [load_webpage, if_pos hu] at h
      injection h with h2
      exact h2.symm
    · rw [load_webpage, if_neg hu] at h
      exact Except.noConfusion h
  | brand => simp [load_webpage, BLOCKED_URL] at h

/-- Witness for C9 applied at the shopping sentinel URL. -/
theorem brand_never_blocked_witness :
    Subdomain.shopping = Subdomain.shopping ∧ PyError.blockedExc = PyError.blockedExc :=
  brand_never_blocked.2.1 Subdomain.shopping
    "https://search.shopping.naver.com/blocked.html" PyError.blockedExc (by decide)

/-- Claim C10: when the discovery pass cannot locate the review tab,
`get_info` raises before any cleanup — the quit after the raise is dead
code — so on the discovery-failure path the probe's handle is never
released, whatever the debug flag; on the success path it always is. -/
theorem discovery_failure_retains_handle (sub : Subdomain) (debug : Bool)
    (product_name : String) (tabs : List Tab) :
    (∀ msg, (get_info sub debug product_name tabs).1 = Except.error msg →
        (get_info sub debug product_name tabs).2 = false) ∧
    (∀ res, (get_info sub debug product_name tabs).1 = Except.ok res →
        (get_info sub debug product_name tabs).2 = true) := by
  cases hf : tabs.find? (fun tab => py_contains tab.text (TEXT_REVIEW_TAB_DICT sub)) with
  | some tab =>
    exact ⟨fun msg h => by simp [get_info, hf] at h,
      fun res h => by simp [get_info, hf]⟩
  | none =>
    exact ⟨fun msg h => by simp [get_info, hf],
      fun res h => by simp [get_info, hf] at h⟩

/-- Witness for C10: a tab list without the review tab makes the probe
fail, and the handle is reported unreleased. -/
theorem discovery_failure_retains_handle_witness :
    (get_info Subdomain.shopping false "P" tabsNoReview).2 = false :=
  (discovery_failure_retains_handle Subdomain.shopping false "P" tabsNoReview).1
    "Cannot find 쇼핑몰리뷰 tab." (by decide)

end Crawl
